import Mathlib

/-!
Verification of the ABCD-optics module `opticalSystemClass.py`.

The module builds 2×2 ray-transfer (ABCD) matrices for optical elements,
composes them, and propagates a Gaussian beam (complex beam parameter `q`,
ray vector `[z; theta]`) through the composed system.

Embedding conventions:
* Python floats are modelled as real numbers `ℝ`, Python complex numbers as `ℂ`.
* `np.matrix([[a,b],[c,d]])` (always 2×2 here) is modelled by the structure
  `Mat2` with explicit multiplication.
* Python raises `ZeroDivisionError` when a plain int/float is divided by zero,
  and `ValueError` on the explicit `raise` statements; fallible operations are
  therefore modelled with `Except PyErr`.
* Attributes that do not exist until `propagate_beam` assigns them
  (`q_out`, `waist_out`, `z_out`, `theta_out`) are modelled as `Option` fields
  that start out `none`; reading an absent attribute in Python raises
  `AttributeError`, modelled by accessor functions returning `Except PyErr`.
-/

/-- Python exceptions that the module can raise. -/
inductive PyErr where
  | zeroDivisionError : PyErr
  | valueError : String → PyErr
  | attributeError : String → PyErr
deriving DecidableEq, Repr

/-- A real 2×2 matrix `[[a, b], [c, d]]`, the shape of every ABCD matrix
built by the module (`np.matrix([[...],[...]])`). -/
structure Mat2 where
  a : ℝ
  b : ℝ
  c : ℝ
  d : ℝ

/-- Matrix product of two 2×2 matrices (`@` / `np.matmul` on `np.matrix`). -/
def Mat2.mul (X Y : Mat2) : Mat2 :=
  ⟨X.a * Y.a + X.b * Y.c, X.a * Y.b + X.b * Y.d,
   X.c * Y.a + X.d * Y.c, X.c * Y.b + X.d * Y.d⟩

/-- The 2×2 identity matrix (`np.eye(2)`). -/
def Mat2.id : Mat2 := ⟨1, 0, 0, 1⟩

theorem Mat2.mul_assoc (X Y Z : Mat2) :
    Mat2.mul (Mat2.mul X Y) Z = Mat2.mul X (Mat2.mul Y Z) := by
  simp only [Mat2.mul, Mat2.mk.injEq]
  exact ⟨by ring, by ring, by ring, by ring⟩

theorem Mat2.id_mul (X : Mat2) : Mat2.mul Mat2.id X = X := by
  cases X with
  | mk a b c d => simp only [Mat2.mul, Mat2.id, Mat2.mk.injEq]; exact ⟨by ring, by ring, by ring, by ring⟩

theorem Mat2.mul_id (X : Mat2) : Mat2.mul X Mat2.id = X := by
  cases X with
  | mk a b c d => simp only [Mat2.mul, Mat2.id, Mat2.mk.injEq]; exact ⟨by ring, by ring, by ring, by ring⟩

/-- The state of an `OpticalSystem` object: the beam parameters set by
`__init__`, the list of appended element matrices, and the output attributes
that exist only after `propagate_beam` has run (modelled as `Option`). -/
structure OpticalSystem where
  wavelength : ℝ
  waist : ℝ
  theta : ℝ
  z : ℝ
  q : ℂ
  optics : List Mat2
  q_out : Option ℂ
  waist_out : Option ℝ
  z_out : Option ℝ
  theta_out : Option ℝ

namespace OpticalSystem

/-- `OpticalSystem.__init__(wavelength, waist, z=0, theta=0, R=np.inf)`:
sets `q = 1j*np.pi*waist**2/wavelength`, stores the scalar parameters, and
creates the empty `optics` list.  The output attributes do not exist yet. -/
noncomputable def init (wavelength waist z theta : ℝ) : OpticalSystem :=
  { wavelength := wavelength
    waist := waist
    theta := theta
    z := z
    q := Complex.I * Real.pi * (waist : ℂ) ^ 2 / (wavelength : ℂ)
    optics := []
    q_out := none
    waist_out := none
    z_out := none
    theta_out := none }

/-- `freeSpace(d, add=False)`: the ABCD matrix `[[1, d], [0, 1]]` for free
space propagation (the pure, non-appending mode). -/
def freeSpace (d : ℝ) : Mat2 := ⟨1, d, 0, 1⟩

/-- `freeSpace(d)` with `add=True`: appends `[[1, d], [0, 1]]` to `optics`. -/
def addFreeSpace (s : OpticalSystem) (d : ℝ) : OpticalSystem :=
  { s with optics := s.optics ++ [freeSpace d] }

/-- `lens(f, n1=0, n2=0, d=0, type=thin)`: the matrix the call appends.
The `thin` branch computes `[[1, 0], [-1/f, 1]]` (raising
`ZeroDivisionError` when `f = 0`); the `thick` branch computes
`[[1,0],[(n2-n1)/n1/f, n2/n1]] @ freeSpace(d) @ [[1,0],[(n1-n2)/n2/f, n1/n2]]`
(raising `ZeroDivisionError` when `n1`, `f` or `n2` is zero); any other type
string raises a ValueError saying the lens type is invalid. -/
noncomputable def lens (f n1 n2 d : ℝ) (type : String) : Except PyErr Mat2 :=
  if type = "thin" then
    if f = 0 then .error .zeroDivisionError
    else .ok ⟨1, 0, -1 / f, 1⟩
  else if type = "thick" then
    if n1 = 0 ∨ f = 0 ∨ n2 = 0 then .error .zeroDivisionError
    else .ok (Mat2.mul (Mat2.mul ⟨1, 0, (n2 - n1) / n1 / f, n2 / n1⟩ (freeSpace d))
              ⟨1, 0, (n1 - n2) / n2 / f, n1 / n2⟩)
  else .error (.valueError ("Invalid lens type"))

/-- Appending form of `lens`: on success the matrix goes onto `optics`. -/
noncomputable def addLens (s : OpticalSystem) (f n1 n2 d : ℝ) (type : String) :
    Except PyErr OpticalSystem :=
  (lens f n1 n2 d type).map fun M => { s with optics := s.optics ++ [M] }

/-- `mirror(radius=0, type=flat)`: the matrix the call appends.  The `flat` type
gives the identity; the `curved` type computes `[[1, 0], [-2/radius, 1]]`, where
The Python scalar division raises `ZeroDivisionError` when `radius = 0`; any
other type string raises a ValueError saying the mirror type is invalid. -/
noncomputable def mirror (radius : ℝ) (type : String) : Except PyErr Mat2 :=
  if type = "flat" then .ok ⟨1, 0, 0, 1⟩
  else if type = "curved" then
    if radius = 0 then .error .zeroDivisionError
    else .ok ⟨1, 0, -2 / radius, 1⟩
  else .error (.valueError ("Invalid mirror type"))

/-- Appending form of `mirror`. -/
noncomputable def addMirror (s : OpticalSystem) (radius : ℝ) (type : String) :
    Except PyErr OpticalSystem :=
  (mirror radius type).map fun M => { s with optics := s.optics ++ [M] }

/-- `interface(n1, n2, d)`: the matrix the call appends,
`[[1,0],[0,n1/n2]] @ freeSpace(d) @ [[1,0],[0,n2/n1]]`; The Python scalar
division raises `ZeroDivisionError` when `n2 = 0` or `n1 = 0`. -/
noncomputable def interface (n1 n2 d : ℝ) : Except PyErr Mat2 :=
  if n2 = 0 ∨ n1 = 0 then .error .zeroDivisionError
  else .ok (Mat2.mul (Mat2.mul ⟨1, 0, 0, n1 / n2⟩ (freeSpace d)) ⟨1, 0, 0, n2 / n1⟩)

/-- Appending form of `interface`. -/
noncomputable def addInterface (s : OpticalSystem) (n1 n2 d : ℝ) : Except PyErr OpticalSystem :=
  (interface n1 n2 d).map fun M => { s with optics := s.optics ++ [M] }

/-- The loop in `propagate_beam`:
`ABCD_matrix = np.eye(2); for element in reversed(self.optics):
ABCD_matrix = np.matmul(ABCD_matrix, element)`. -/
def totalMatrix (optics : List Mat2) : Mat2 :=
  optics.reverse.foldl Mat2.mul Mat2.id

/-- `propagate_beam()`: composes the total ABCD matrix, applies it to the ray
vector `[[z], [theta]]`, computes
`q_out = A*q + B/(C*q + D)`  (the source expression, in which Python operator
precedence groups the division before the addition), derives
`waist_out = sqrt(wavelength*|Im q_out|/pi) * sqrt(1 + (Re q_out/Im q_out)^2)`,
and stores the four outputs on the object. -/
noncomputable def propagate_beam (s : OpticalSystem) : OpticalSystem :=
  let M := totalMatrix s.optics
  let qo : ℂ := (M.a : ℂ) * s.q + (M.b : ℂ) / ((M.c : ℂ) * s.q + (M.d : ℂ))
  { s with
    q_out := some qo
    waist_out := some (Real.sqrt (s.wavelength * |qo.im| / Real.pi) *
      Real.sqrt (1 + (qo.re / qo.im) ^ 2))
    z_out := some (M.a * s.z + M.b * s.theta)
    theta_out := some (M.c * s.z + M.d * s.theta) }

/-- `plotBeamProfile()` guard: the plotting body runs only when the attribute
`waist_out` exists (checked with hasattr); otherwise the method raises
a ValueError saying the beam has not been propagated yet.  The plotting body
itself is pure visualization and is modelled as `()`. -/
def plotBeamProfile (s : OpticalSystem) : Except PyErr Unit :=
  match s.waist_out with
  | some _ => .ok ()
  | none => .error (.valueError
      ("Beam has not been propagated yet. Run the propagate_beam() method first."))

/-- Python attribute access `self.q_out`: raises `AttributeError` when
`propagate_beam` has not yet assigned the attribute. -/
def get_q_out (s : OpticalSystem) : Except PyErr ℂ :=
  match s.q_out with
  | some v => .ok v
  | none => .error (.attributeError ("q_out"))

/-- Python attribute access `self.waist_out`. -/
def get_waist_out (s : OpticalSystem) : Except PyErr ℝ :=
  match s.waist_out with
  | some v => .ok v
  | none => .error (.attributeError ("waist_out"))

/-- Python attribute access `self.z_out`. -/
def get_z_out (s : OpticalSystem) : Except PyErr ℝ :=
  match s.z_out with
  | some v => .ok v
  | none => .error (.attributeError ("z_out"))

/-- Python attribute access `self.theta_out`. -/
def get_theta_out (s : OpticalSystem) : Except PyErr ℝ :=
  match s.theta_out with
  | some v => .ok v
  | none => .error (.attributeError ("theta_out"))

end OpticalSystem

open OpticalSystem

/-- Pulling a left factor out of a fold of matrix products. -/
theorem foldl_mul_pull (l : List Mat2) (X Y : Mat2) :
    l.foldl Mat2.mul (Mat2.mul X Y) = Mat2.mul X (l.foldl Mat2.mul Y) := by
  induction l generalizing Y with
  | nil => rfl
  | cons h t ih =>
      simp only [List.foldl_cons]
      rw [Mat2.mul_assoc, ih]

/-- A fold of matrix products from an arbitrary start matrix. -/
theorem foldl_mul_start (l : List Mat2) (X : Mat2) :
    l.foldl Mat2.mul X = Mat2.mul X (l.foldl Mat2.mul Mat2.id) := by
  conv_lhs => rw [← Mat2.mul_id X]
  rw [foldl_mul_pull]

/-- For matrix products the left fold from the identity agrees with the
right fold. -/
theorem foldl_mul_id_eq_foldr (m : List Mat2) :
    m.foldl Mat2.mul Mat2.id = m.foldr Mat2.mul Mat2.id := by
  induction m with
  | nil => rfl
  | cons h t ih =>
      simp only [List.foldl_cons, List.foldr_cons]
      rw [Mat2.id_mul, foldl_mul_start, ih]

/-- The composition order the spec prescribes: the product
`e_n * (e_(n-1) * ( ... * (e_1 * id)))` of the appended element matrices with
the last-appended element leftmost. -/
def specTotalMatrix (optics : List Mat2) : Mat2 :=
  optics.reverse.foldr Mat2.mul Mat2.id

/-- The q-parameter update the spec prescribes: the bilinear transform
`(A*q + B) / (C*q + D)` of the composed total system matrix. -/
noncomputable def specBilinearQOut (s : OpticalSystem) : ℂ :=
  (((totalMatrix s.optics).a : ℂ) * s.q + ((totalMatrix s.optics).b : ℂ)) /
    (((totalMatrix s.optics).c : ℂ) * s.q + ((totalMatrix s.optics).d : ℂ))

/-- C2: the loop in `propagate_beam` composes the total system matrix as the
product of the appended element matrices in reverse append order: it equals
the spec-side product with the last-appended element leftmost, appending an
element multiplies the total on the left (so the new element applies last),
and the first-appended element stays rightmost (so it acts first on the
column ray vector). -/
theorem C2_reverse_order_composition (l : List Mat2) :
    totalMatrix l = specTotalMatrix l ∧
    (∀ e : Mat2, totalMatrix (l ++ [e]) = Mat2.mul e (totalMatrix l)) ∧
    (∀ e : Mat2, totalMatrix (e :: l) = Mat2.mul (totalMatrix l) e) := by
  refine ⟨foldl_mul_id_eq_foldr l.reverse, ?_, ?_⟩
  · intro e
    show (l ++ [e]).reverse.foldl Mat2.mul Mat2.id = _
    rw [List.reverse_append]
    simp only [List.reverse_cons, List.reverse_nil, List.nil_append,
      List.singleton_append, List.foldl_cons]
    rw [Mat2.id_mul, foldl_mul_start]
    rfl
  · intro e
    show (e :: l).reverse.foldl Mat2.mul Mat2.id = _
    rw [List.reverse_cons, List.foldl_append]
    rfl

/-- C7: `propagate_beam` is idempotent: a second call with no intervening
appends recomputes exactly the same four outputs (the whole states agree),
and the only fields the call changes are the stored outputs themselves —
`wavelength`, `waist`, `theta`, `z`, `q` and `optics` are untouched. -/
theorem C7_propagate_idempotent (s : OpticalSystem) :
    propagate_beam (propagate_beam s) = propagate_beam s ∧
    (propagate_beam s).wavelength = s.wavelength ∧
    (propagate_beam s).waist = s.waist ∧
    (propagate_beam s).theta = s.theta ∧
    (propagate_beam s).z = s.z ∧
    (propagate_beam s).q = s.q ∧
    (propagate_beam s).optics = s.optics :=
  ⟨rfl, rfl, rfl, rfl, rfl, rfl, rfl⟩

/-- C8: `mirror(radius=0, type=curved)` raises an error (the Python scalar
division `-2/radius` raises `ZeroDivisionError`) instead of silently
producing infinite or NaN matrix entries. -/
theorem C8_curved_mirror_zero_radius :
    mirror 0 ("curved") = .error .zeroDivisionError := by
  simp [mirror]

/-- C9: before the first `propagate_beam` call the output attributes do not
exist: `plotBeamProfile` raises the has-not-been-propagated `ValueError`, and
reading any of `q_out`, `waist_out`, `z_out`, `theta_out` raises
`AttributeError`; appending elements does not create the outputs, so the
guard still fires after an append. -/
theorem C9_pre_propagation_access (wl w z th d : ℝ) :
    plotBeamProfile (init wl w z th) = .error (.valueError
      ("Beam has not been propagated yet. Run the propagate_beam() method first.")) ∧
    get_q_out (init wl w z th) = .error (.attributeError ("q_out")) ∧
    get_waist_out (init wl w z th) = .error (.attributeError ("waist_out")) ∧
    get_z_out (init wl w z th) = .error (.attributeError ("z_out")) ∧
    get_theta_out (init wl w z th) = .error (.attributeError ("theta_out")) ∧
    plotBeamProfile (addFreeSpace (init wl w z th) d) =
      plotBeamProfile (init wl w z th) :=
  ⟨rfl, rfl, rfl, rfl, rfl, rfl⟩

/-- C10: the thin branch of `lens` ignores `n1`, `n2` and `d` entirely: two
calls agreeing on `f` produce the same result whatever the other arguments
are, and for nonzero `f` that result is the matrix `[[1, 0], [-1/f, 1]]`. -/
theorem C10_thin_lens_ignores_media (f n1 n2 d n1' n2' d' : ℝ) (hf : f ≠ 0) :
    lens f n1 n2 d ("thin") = lens f n1' n2' d' ("thin") ∧
    lens f n1 n2 d ("thin") = .ok ⟨1, 0, -1 / f, 1⟩ := by
  constructor
  · rfl
  · simp [lens, hf]

/-- Witness for C10 at `f = 2` with two different media-argument triples. -/
theorem C10_witness :
    lens 2 1 1.5 3 ("thin") = lens 2 7 0 9 ("thin") ∧
    lens 2 1 1.5 3 ("thin") = .ok ⟨1, 0, -1 / 2, 1⟩ :=
  C10_thin_lens_ignores_media 2 1 1.5 3 7 0 9 (by norm_num)

/-- Propagation through an empty optics list stores the input `q` unchanged. -/
theorem propagate_beam_nil_q_out (s : OpticalSystem) (h : s.optics = []) :
    (propagate_beam s).q_out = some s.q := by
  simp [propagate_beam, totalMatrix, h, Mat2.id]

/-- Propagation through an empty optics list stores the input `z` unchanged. -/
theorem propagate_beam_nil_z_out (s : OpticalSystem) (h : s.optics = []) :
    (propagate_beam s).z_out = some s.z := by
  simp [propagate_beam, totalMatrix, h, Mat2.id]

/-- Propagation through an empty optics list stores the input `theta`
unchanged. -/
theorem propagate_beam_nil_theta_out (s : OpticalSystem) (h : s.optics = []) :
    (propagate_beam s).theta_out = some s.theta := by
  simp [propagate_beam, totalMatrix, h, Mat2.id]

/-- Propagation through an empty optics list stores the waist formula
evaluated at the unchanged `q`. -/
theorem propagate_beam_nil_waist_out (s : OpticalSystem) (h : s.optics = []) :
    (propagate_beam s).waist_out = some (Real.sqrt (s.wavelength * |s.q.im| / Real.pi) *
      Real.sqrt (1 + (s.q.re / s.q.im) ^ 2)) := by
  simp [propagate_beam, totalMatrix, h, Mat2.id]

/-- The initial complex beam parameter written with the imaginary unit on the
right. -/
theorem init_q_eq (wl w z th : ℝ) :
    (init wl w z th).q = ((Real.pi * w ^ 2 / wl : ℝ) : ℂ) * Complex.I := by
  simp only [init]
  push_cast
  ring

/-- Real part of the initial complex beam parameter. -/
theorem init_q_re (wl w z th : ℝ) : (init wl w z th).q.re = 0 := by
  rw [init_q_eq]
  generalize Real.pi * w ^ 2 / wl = r
  simp

/-- Imaginary part of the initial complex beam parameter. -/
theorem init_q_im (wl w z th : ℝ) :
    (init wl w z th).q.im = Real.pi * w ^ 2 / wl := by
  rw [init_q_eq]
  generalize Real.pi * w ^ 2 / wl = r
  simp

/-- C3: for a valid beam (positive wavelength and waist) and an empty element
list, `propagate_beam` is the identity transform: `z_out = z`,
`theta_out = theta`, `q_out = q` and `waist_out = waist`. -/
theorem C3_identity_propagation (wl w z th : ℝ) (hwl : 0 < wl) (hw : 0 < w) :
    (propagate_beam (init wl w z th)).z_out = some z ∧
    (propagate_beam (init wl w z th)).theta_out = some th ∧
    (propagate_beam (init wl w z th)).q_out = some (init wl w z th).q ∧
    (propagate_beam (init wl w z th)).waist_out = some w := by
  have hwl0 : wl ≠ 0 := ne_of_gt hwl
  have hpi0 : Real.pi ≠ 0 := Real.pi_ne_zero
  have himpos : 0 < Real.pi * w ^ 2 / wl :=
    div_pos (mul_pos Real.pi_pos (pow_pos hw 2)) hwl
  refine ⟨propagate_beam_nil_z_out _ rfl, propagate_beam_nil_theta_out _ rfl,
    propagate_beam_nil_q_out _ rfl, ?_⟩
  rw [propagate_beam_nil_waist_out _ rfl]
  have hwf : (init wl w z th).wavelength = wl := rfl
  rw [hwf, init_q_re, init_q_im, abs_of_pos himpos]
  have h1 : wl * (Real.pi * w ^ 2 / wl) / Real.pi = w ^ 2 := by
    field_simp
  rw [h1, Real.sqrt_sq hw.le]
  norm_num

/-- Witness for C3 at `wavelength = 1`, `waist = 1`, `z = 0`, `theta = 0`. -/
theorem C3_witness :
    (propagate_beam (init 1 1 0 0)).z_out = some 0 ∧
    (propagate_beam (init 1 1 0 0)).theta_out = some 0 ∧
    (propagate_beam (init 1 1 0 0)).q_out = some (init 1 1 0 0).q ∧
    (propagate_beam (init 1 1 0 0)).waist_out = some 1 :=
  C3_identity_propagation 1 1 0 0 one_pos one_pos

/-- The composed matrix of a one-element system is that element. -/
theorem totalMatrix_singleton (m : Mat2) : totalMatrix [m] = m :=
  Mat2.id_mul m

/-- A concrete input on which the operator precedence of the `q_out` line
matters: the beam `init pi 1 0 0` (whose `q` equals `i`) with one thin lens
of focal length 1 appended. -/
noncomputable def lensSystem : OpticalSystem :=
  { init Real.pi 1 0 0 with optics := [⟨1, 0, -1 / 1, 1⟩] }

/-- The complex beam parameter of `lensSystem` is the imaginary unit. -/
theorem lensSystem_q : lensSystem.q = Complex.I := by
  have hpi : (Real.pi : ℂ) ≠ 0 := Complex.ofReal_ne_zero.mpr Real.pi_ne_zero
  show Complex.I * (Real.pi : ℂ) * ((1 : ℝ) : ℂ) ^ 2 / (Real.pi : ℂ) = Complex.I
  rw [mul_div_assoc]
  norm_num
  rw [mul_assoc, mul_inv_cancel₀ hpi, mul_one]

/-- C1: REFUTED by the code — the source line reads
`A*self.q + B/(C*self.q + D)`, which Python groups as `A*q + (B/(C*q+D))`,
not the bilinear transform `(A*q + B)/(C*q + D)` the spec states.  On the
concrete system `lensSystem` the code stores `q_out = i` while the bilinear
transform of the same composed matrix gives `(-1 + i)/2`, and the two
differ. -/
theorem C1_q_out_is_not_bilinear :
    addLens (init Real.pi 1 0 0) 1 0 0 0 ("thin") = .ok lensSystem ∧
    (propagate_beam lensSystem).q_out = some Complex.I ∧
    specBilinearQOut lensSystem = (-1 + Complex.I) / 2 ∧
    (-1 + Complex.I) / 2 ≠ Complex.I := by
  refine ⟨?_, ?_, ?_, ?_⟩
  · norm_num [addLens, lens, lensSystem, init, Except.map]
  · simp only [propagate_beam]
    rw [show lensSystem.optics = [(⟨1, 0, -1 / 1, 1⟩ : Mat2)] from rfl,
      totalMatrix_singleton, lensSystem_q]
    norm_num
  · simp only [specBilinearQOut]
    rw [show lensSystem.optics = [(⟨1, 0, -1 / 1, 1⟩ : Mat2)] from rfl,
      totalMatrix_singleton, lensSystem_q]
    simp [Complex.ext_iff, Complex.div_re, Complex.div_im, Complex.normSq_apply]
    norm_num
  · intro h
    have h2 := congrArg Complex.re h
    simp [Complex.div_re, Complex.normSq_apply] at h2

/-- C4: the stored `waist_out` is exactly
`sqrt(wavelength * |Im q_out| / pi) * sqrt(1 + (Re q_out / Im q_out)^2)`
computed from the `q_out` the same call stored. -/
theorem C4_waist_from_q_out (s : OpticalSystem) (qo : ℂ)
    (hq : (propagate_beam s).q_out = some qo) (him : qo.im ≠ 0) :
    (propagate_beam s).waist_out =
      some (Real.sqrt (s.wavelength * |qo.im| / Real.pi) *
        Real.sqrt (1 + (qo.re / qo.im) ^ 2)) := by
  have hexpr := hq
  simp only [propagate_beam, Option.some.injEq] at hexpr
  simp only [propagate_beam, Option.some.injEq]
  rw [hexpr]

/-- A concrete beam state with `q = i` and no appended optics. -/
noncomputable def sampleBeam : OpticalSystem :=
  { wavelength := 1, waist := 1, theta := 0, z := 0, q := Complex.I,
    optics := [], q_out := none, waist_out := none, z_out := none,
    theta_out := none }

/-- Witness for C4 on `sampleBeam`, whose stored `q_out` is `i`. -/
theorem C4_witness :
    (propagate_beam sampleBeam).waist_out =
      some (Real.sqrt (sampleBeam.wavelength * |Complex.I.im| / Real.pi) *
        Real.sqrt (1 + (Complex.I.re / Complex.I.im) ^ 2)) :=
  C4_waist_from_q_out sampleBeam Complex.I
    (by rw [propagate_beam_nil_q_out sampleBeam rfl]; rfl) (by simp)

/-- C5: appending free-space elements of distances `d1` and `d2` and
propagating stores the same `q_out`, `z_out` and `theta_out` as appending a
single free-space element of distance `d1 + d2`. -/
theorem C5_free_space_additive (wl w z th d1 d2 : ℝ) :
    (propagate_beam (addFreeSpace (addFreeSpace (init wl w z th) d1) d2)).q_out =
      (propagate_beam (addFreeSpace (init wl w z th) (d1 + d2))).q_out ∧
    (propagate_beam (addFreeSpace (addFreeSpace (init wl w z th) d1) d2)).z_out =
      (propagate_beam (addFreeSpace (init wl w z th) (d1 + d2))).z_out ∧
    (propagate_beam (addFreeSpace (addFreeSpace (init wl w z th) d1) d2)).theta_out =
      (propagate_beam (addFreeSpace (init wl w z th) (d1 + d2))).theta_out := by
  refine ⟨?_, ?_, ?_⟩ <;>
    simp [propagate_beam, totalMatrix, addFreeSpace, init, freeSpace,
      Mat2.mul, Mat2.id]

/-- C6: appending `interface(1, 1.5, 0)` and then `interface(1.5, 1, 0)` and
propagating stores `q_out` equal to the input `q`: the index changes cancel
when the separation distance is zero. -/
theorem C6_interface_round_trip (wl w z th : ℝ) :
    ((addInterface (init wl w z th) 1 1.5 0).bind fun s1 =>
        addInterface s1 1.5 1 0).map (fun s2 => (propagate_beam s2).q_out) =
      .ok (some (init wl w z th).q) := by
  norm_num [addInterface, interface, Except.map, Except.bind, propagate_beam,
    totalMatrix, freeSpace, Mat2.mul, Mat2.id, init]
